import Mathlib

/-!
Verification of the OpenFlow message field accessor layer
(`src/Modules/loci/inc/loci/of_message.h` of the indigo repository).

The accessors operate on a raw byte buffer, modelled here as a `List Nat`
whose entries are byte values.  Writes past the end of the list are
no-ops (the C code leaves out-of-bounds access undefined; the theorems
carry the minimum-length hypotheses the header documents).

The byte-order primitives `buf_u8_get/set`, `buf_u16_get/set` and
`buf_u32_get/set` are declared in `of_buffer.h`, which is not part of
this source snapshot; they are modelled from the spec's invariant that
every multi-byte field is stored in network (big-endian) order on the
wire, and the version enumeration constant `OF_VERSION_1_0` is likewise
modelled from the spec's wire encoding of version 1.0.
-/

/-- A message buffer: a mutable contiguous byte sequence, here a list of
byte values. -/
abbrev Buf := List Nat

/-- Modelled from the spec: `buf_u8_get` of `of_buffer.h` (missing from
the source snapshot) reads the single byte at the given offset; a
single-byte field needs no byte-order conversion. -/
def buf_u8_get (b : Buf) (off : Nat) : Nat :=
  b.getD off 0

/-- Modelled from the spec: `buf_u8_set` of `of_buffer.h` (missing from
the source snapshot) writes one byte at the given offset. -/
def buf_u8_set (b : Buf) (off v : Nat) : Buf :=
  b.set off (v % 256)

/-- Modelled from the spec: `buf_u16_get` of `of_buffer.h` (missing from
the source snapshot) reads a 2-byte field and converts it from network
(big-endian) order to a host integer. -/
def buf_u16_get (b : Buf) (off : Nat) : Nat :=
  b.getD off 0 * 256 + b.getD (off + 1) 0

/-- Modelled from the spec: `buf_u16_set` of `of_buffer.h` (missing from
the source snapshot) writes a 2-byte field in network (big-endian)
order: high byte first. -/
def buf_u16_set (b : Buf) (off v : Nat) : Buf :=
  (b.set off (v / 256 % 256)).set (off + 1) (v % 256)

/-- Modelled from the spec: `buf_u32_get` of `of_buffer.h` (missing from
the source snapshot) reads a 4-byte field and converts it from network
(big-endian) order to a host integer. -/
def buf_u32_get (b : Buf) (off : Nat) : Nat :=
  b.getD off 0 * 16777216 + b.getD (off + 1) 0 * 65536 +
    b.getD (off + 2) 0 * 256 + b.getD (off + 3) 0

/-- Modelled from the spec: `buf_u32_set` of `of_buffer.h` (missing from
the source snapshot) writes a 4-byte field in network (big-endian)
order: most significant byte first. -/
def buf_u32_set (b : Buf) (off v : Nat) : Buf :=
  ((((b.set off (v / 16777216 % 256)).set (off + 1) (v / 65536 % 256)).set
      (off + 2) (v / 256 % 256)).set (off + 3) (v % 256))

/-- Modelled from the spec: the enumerated one-byte wire value of
protocol version 1.0 (`of_version_t` is declared outside this source
snapshot).  The source's offset macro compares the version against the
literal `1`, fixing `OF_VERSION_1_0 = 1`. -/
def OF_VERSION_1_0 : Nat := 1

/-! Offsets and minimum-length constants, from `of_message.h`. -/

def OF_MESSAGE_VERSION_OFFSET : Nat := 0

def OF_MESSAGE_TYPE_OFFSET : Nat := 1

def OF_MESSAGE_LENGTH_OFFSET : Nat := 2

def OF_MESSAGE_XID_OFFSET : Nat := 4

def OF_MESSAGE_HEADER_LENGTH : Nat := 8

def OF_MESSAGE_STATS_TYPE_OFFSET : Nat := 8

def OF_MESSAGE_FLOW_MOD_COMMAND_OFFSET (version : Nat) : Nat :=
  if version = 1 then 56 else 25

def OF_MESSAGE_MIN_LENGTH : Nat := 8

def OF_MESSAGE_MIN_STATS_LENGTH : Nat := OF_MESSAGE_STATS_TYPE_OFFSET + 2

def OF_MESSAGE_MIN_FLOW_MOD_LENGTH (version : Nat) : Nat :=
  if version = 1 then 57 else 26

def OF_MESSAGE_EXPERIMENTER_ID_OFFSET : Nat := 8

def OF_MESSAGE_EXPERIMENTER_SUBTYPE_OFFSET : Nat := 12

def OF_MESSAGE_EXPERIMENTER_MIN_LENGTH : Nat := 16

/-! The field accessors, translated from `of_message.h`.  Each C set
routine mutates the buffer in place; here it returns the new buffer.
Value parameters of C type `uint8_t`, `uint16_t`, `uint32_t` are reduced
modulo the type's width at entry, as the C calling convention does. -/

def of_message_version_get (msg : Buf) : Nat :=
  msg.getD OF_MESSAGE_VERSION_OFFSET 0

def of_message_version_set (msg : Buf) (version : Nat) : Buf :=
  buf_u8_set msg 0 (version % 256)

def of_message_type_get (msg : Buf) : Nat :=
  msg.getD OF_MESSAGE_TYPE_OFFSET 0

def of_message_type_set (msg : Buf) (value : Nat) : Buf :=
  buf_u8_set msg OF_MESSAGE_TYPE_OFFSET (value % 256)

def of_message_length_get (msg : Buf) : Nat :=
  buf_u16_get msg OF_MESSAGE_LENGTH_OFFSET

def of_message_length_set (msg : Buf) (len : Nat) : Buf :=
  buf_u16_set msg OF_MESSAGE_LENGTH_OFFSET (len % 65536)

def of_message_xid_get (msg : Buf) : Nat :=
  buf_u32_get msg OF_MESSAGE_XID_OFFSET

def of_message_xid_set (msg : Buf) (xid : Nat) : Buf :=
  buf_u32_set msg OF_MESSAGE_XID_OFFSET (xid % 4294967296)

def of_message_stats_type_get (msg : Buf) : Nat :=
  buf_u16_get msg OF_MESSAGE_STATS_TYPE_OFFSET

def of_message_stats_type_set (msg : Buf) (type : Nat) : Buf :=
  buf_u16_set msg OF_MESSAGE_STATS_TYPE_OFFSET (type % 65536)

def of_message_experimenter_id_get (msg : Buf) : Nat :=
  buf_u32_get msg OF_MESSAGE_EXPERIMENTER_ID_OFFSET

def of_message_experimenter_id_set (msg : Buf) (experimenter_id : Nat) : Buf :=
  buf_u32_set msg OF_MESSAGE_EXPERIMENTER_ID_OFFSET (experimenter_id % 4294967296)

def of_message_experimenter_subtype_get (msg : Buf) : Nat :=
  buf_u32_get msg OF_MESSAGE_EXPERIMENTER_SUBTYPE_OFFSET

def of_message_experimenter_subtype_set (msg : Buf) (subtype : Nat) : Buf :=
  buf_u32_set msg OF_MESSAGE_EXPERIMENTER_SUBTYPE_OFFSET (subtype % 4294967296)

/-- Flow mod command changed from 16 to 8 bits on the wire from 1.0 to
1.1.  For version 1.0 the routine reads a 2-byte big-endian value and
truncates it to `uint8_t` (`val8 = val16`); otherwise it reads one
byte. -/
def of_message_flow_mod_command_get (msg : Buf) (version : Nat) : Nat :=
  if version = OF_VERSION_1_0 then
    buf_u16_get msg (OF_MESSAGE_FLOW_MOD_COMMAND_OFFSET version) % 256
  else
    buf_u8_get msg (OF_MESSAGE_FLOW_MOD_COMMAND_OFFSET version)

def of_message_flow_mod_command_set (msg : Buf) (version command : Nat) : Buf :=
  if version = OF_VERSION_1_0 then
    buf_u16_set msg (OF_MESSAGE_FLOW_MOD_COMMAND_OFFSET version) (command % 256)
  else
    buf_u8_set msg (OF_MESSAGE_FLOW_MOD_COMMAND_OFFSET version) (command % 256)

/-! Helper lemmas about reading a byte after a write. -/

theorem getD_set (l : List Nat) (i j v : Nat) :
    (l.set i v).getD j 0 = if i = j ∧ i < l.length then v else l.getD j 0 := by
  simp only [List.getD, List.get?_eq_getElem?, List.getElem?_set]
  by_cases hij : i = j
  · subst hij
    by_cases hi : i < l.length
    · simp [hi]
    · rw [List.getElem?_eq_none (Nat.le_of_not_lt hi)]
      simp [hi]
  · simp [hij]

theorem buf_u8_set_frame (b : Buf) (off v j : Nat) (h : j ≠ off) :
    (buf_u8_set b off v).getD j 0 = b.getD j 0 := by
  simp only [buf_u8_set, getD_set, true_and]
  split_ifs <;> omega

theorem buf_u16_set_frame (b : Buf) (off v j : Nat) (h1 : j ≠ off) (h2 : j ≠ off + 1) :
    (buf_u16_set b off v).getD j 0 = b.getD j 0 := by
  simp only [buf_u16_set, getD_set, List.length_set, true_and]
  split_ifs <;> omega

theorem buf_u32_set_frame (b : Buf) (off v j : Nat) (h0 : j ≠ off) (h1 : j ≠ off + 1)
    (h2 : j ≠ off + 2) (h3 : j ≠ off + 3) :
    (buf_u32_set b off v).getD j 0 = b.getD j 0 := by
  simp only [buf_u32_set, getD_set, List.length_set, true_and]
  split_ifs <;> omega

theorem buf_u8_roundtrip (b : Buf) (off v : Nat) (h : off < b.length) :
    buf_u8_get (buf_u8_set b off v) off = v % 256 := by
  simp only [buf_u8_get, buf_u8_set, getD_set, true_and]
  split_ifs <;> omega

theorem buf_u16_roundtrip (b : Buf) (off v : Nat) (h : off + 1 < b.length) :
    buf_u16_get (buf_u16_set b off v) off = v % 65536 := by
  simp only [buf_u16_get, buf_u16_set, getD_set, List.length_set, true_and]
  split_ifs <;> omega

theorem buf_u32_roundtrip (b : Buf) (off v : Nat) (h : off + 3 < b.length) :
    buf_u32_get (buf_u32_set b off v) off = v % 4294967296 := by
  simp only [buf_u32_get, buf_u32_set, getD_set, List.length_set, true_and]
  split_ifs <;> omega

theorem buf_u16_set_byte_hi (b : Buf) (off v : Nat) (h : off < b.length) :
    (buf_u16_set b off v).getD off 0 = v / 256 % 256 := by
  simp only [buf_u16_set, getD_set, List.length_set, true_and]
  split_ifs <;> omega

theorem buf_u16_set_byte_lo (b : Buf) (off v : Nat) (h : off + 1 < b.length) :
    (buf_u16_set b off v).getD (off + 1) 0 = v % 256 := by
  simp only [buf_u16_set, getD_set, List.length_set, true_and]
  split_ifs <;> omega

theorem buf_u32_set_bytes (b : Buf) (off v : Nat) (h : off + 3 < b.length) :
    (buf_u32_set b off v).getD off 0 = v / 16777216 % 256 ∧
    (buf_u32_set b off v).getD (off + 1) 0 = v / 65536 % 256 ∧
    (buf_u32_set b off v).getD (off + 2) 0 = v / 256 % 256 ∧
    (buf_u32_set b off v).getD (off + 3) 0 = v % 256 := by
  simp only [buf_u32_set, getD_set, List.length_set, true_and]
  refine ⟨?_, ?_, ?_, ?_⟩ <;> (split_ifs <;> omega)

/-! Unfolding lemmas for the version dispatch of the flow mod command
accessors. -/

theorem flow_mod_set_v10 (buf : Buf) (c : Nat) :
    of_message_flow_mod_command_set buf 1 c = buf_u16_set buf 56 (c % 256) := by
  simp [of_message_flow_mod_command_set, OF_VERSION_1_0, OF_MESSAGE_FLOW_MOD_COMMAND_OFFSET]

theorem flow_mod_set_other (buf : Buf) (v c : Nat) (h : v ≠ 1) :
    of_message_flow_mod_command_set buf v c = buf_u8_set buf 25 (c % 256) := by
  simp [of_message_flow_mod_command_set, OF_VERSION_1_0, OF_MESSAGE_FLOW_MOD_COMMAND_OFFSET, h]

theorem flow_mod_get_v10 (buf : Buf) :
    of_message_flow_mod_command_get buf 1 = buf_u16_get buf 56 % 256 := by
  simp [of_message_flow_mod_command_get, OF_VERSION_1_0, OF_MESSAGE_FLOW_MOD_COMMAND_OFFSET]

theorem flow_mod_get_other (buf : Buf) (v : Nat) (h : v ≠ 1) :
    of_message_flow_mod_command_get buf v = buf_u8_get buf 25 := by
  simp [of_message_flow_mod_command_get, OF_VERSION_1_0, OF_MESSAGE_FLOW_MOD_COMMAND_OFFSET, h]

/-- Claim C1: with version 1.0, setting the flow mod command to 7 writes
the two bytes 0x00, 0x07 at offset 56 and leaves the byte at offset 25
unchanged; with version 1.1 or later (wire value at least 2), the same
call writes the single byte 0x07 at offset 25 and leaves the bytes at
offsets 56 and 57 unchanged; in both cases a subsequent get with the
same version returns 7. -/
theorem C1_flow_mod_version_dispatch (buf : Buf) (hlen : 58 ≤ buf.length) :
    ((of_message_flow_mod_command_set buf 1 7).getD 56 0 = 0x00 ∧
     (of_message_flow_mod_command_set buf 1 7).getD 57 0 = 0x07 ∧
     (of_message_flow_mod_command_set buf 1 7).getD 25 0 = buf.getD 25 0 ∧
     of_message_flow_mod_command_get (of_message_flow_mod_command_set buf 1 7) 1 = 7) ∧
    (∀ v, 2 ≤ v →
      (of_message_flow_mod_command_set buf v 7).getD 25 0 = 0x07 ∧
      (of_message_flow_mod_command_set buf v 7).getD 56 0 = buf.getD 56 0 ∧
      (of_message_flow_mod_command_set buf v 7).getD 57 0 = buf.getD 57 0 ∧
      of_message_flow_mod_command_get (of_message_flow_mod_command_set buf v 7) v = 7) := by
  constructor
  · rw [flow_mod_set_v10]
    refine ⟨?_, ?_, ?_, ?_⟩
    · rw [buf_u16_set_byte_hi buf 56 (7 % 256) (by omega)]
    · rw [buf_u16_set_byte_lo buf 56 (7 % 256) (by omega)]
    · exact buf_u16_set_frame buf 56 (7 % 256) 25 (by omega) (by omega)
    · rw [flow_mod_get_v10, buf_u16_roundtrip buf 56 (7 % 256) (by omega)]
  · intro v hv
    rw [flow_mod_set_other buf v 7 (by omega), flow_mod_get_other _ v (by omega)]
    refine ⟨?_, ?_, ?_, ?_⟩
    · have h8 := buf_u8_roundtrip buf 25 (7 % 256) (by omega)
      simp only [buf_u8_get] at h8
      rw [h8]
    · exact buf_u8_set_frame buf 25 (7 % 256) 56 (by omega)
    · exact buf_u8_set_frame buf 25 (7 % 256) 57 (by omega)
    · exact buf_u8_roundtrip buf 25 (7 % 256) (by omega)

/-- Claim C1, witness: the dispatch theorem instantiated on a concrete
58-byte zero buffer, at versions 1 and 4. -/
theorem C1_flow_mod_version_dispatch_witness :
    of_message_flow_mod_command_get
        (of_message_flow_mod_command_set (List.replicate 58 0) 1 7) 1 = 7 ∧
    of_message_flow_mod_command_get
        (of_message_flow_mod_command_set (List.replicate 58 0) 4 7) 4 = 7 := by
  have h := C1_flow_mod_version_dispatch (List.replicate 58 0) (by simp)
  exact ⟨h.1.2.2.2, (h.2 4 (by omega)).2.2.2⟩

/-- Claim C2: for every header field and every value representable in
that field's declared width, set followed by get on a sufficiently long
buffer returns exactly the value written; the flow mod command accepts
values 0 to 255 at every protocol version. -/
theorem C2_set_get_roundtrip (buf : Buf) (hlen : 58 ≤ buf.length) :
    (∀ v < 256, of_message_version_get (of_message_version_set buf v) = v) ∧
    (∀ v < 256, of_message_type_get (of_message_type_set buf v) = v) ∧
    (∀ v < 65536, of_message_length_get (of_message_length_set buf v) = v) ∧
    (∀ v < 4294967296, of_message_xid_get (of_message_xid_set buf v) = v) ∧
    (∀ v < 65536, of_message_stats_type_get (of_message_stats_type_set buf v) = v) ∧
    (∀ v < 4294967296,
      of_message_experimenter_id_get (of_message_experimenter_id_set buf v) = v) ∧
    (∀ v < 4294967296,
      of_message_experimenter_subtype_get (of_message_experimenter_subtype_set buf v) = v) ∧
    (∀ version, ∀ v < 256,
      of_message_flow_mod_command_get
        (of_message_flow_mod_command_set buf version v) version = v) := by
  refine ⟨?_, ?_, ?_, ?_, ?_, ?_, ?_, ?_⟩
  · intro v hv
    have h8 := buf_u8_roundtrip buf 0 (v % 256) (by omega)
    simp only [buf_u8_get] at h8
    simp only [of_message_version_get, of_message_version_set, OF_MESSAGE_VERSION_OFFSET, h8]
    omega
  · intro v hv
    have h8 := buf_u8_roundtrip buf 1 (v % 256) (by omega)
    simp only [buf_u8_get] at h8
    simp only [of_message_type_get, of_message_type_set, OF_MESSAGE_TYPE_OFFSET, h8]
    omega
  · intro v hv
    simp only [of_message_length_get, of_message_length_set, OF_MESSAGE_LENGTH_OFFSET]
    rw [buf_u16_roundtrip buf 2 (v % 65536) (by omega)]
    omega
  · intro v hv
    simp only [of_message_xid_get, of_message_xid_set, OF_MESSAGE_XID_OFFSET]
    rw [buf_u32_roundtrip buf 4 (v % 4294967296) (by omega)]
    omega
  · intro v hv
    simp only [of_message_stats_type_get, of_message_stats_type_set,
      OF_MESSAGE_STATS_TYPE_OFFSET]
    rw [buf_u16_roundtrip buf 8 (v % 65536) (by omega)]
    omega
  · intro v hv
    simp only [of_message_experimenter_id_get, of_message_experimenter_id_set,
      OF_MESSAGE_EXPERIMENTER_ID_OFFSET]
    rw [buf_u32_roundtrip buf 8 (v % 4294967296) (by omega)]
    omega
  · intro v hv
    simp only [of_message_experimenter_subtype_get, of_message_experimenter_subtype_set,
      OF_MESSAGE_EXPERIMENTER_SUBTYPE_OFFSET]
    rw [buf_u32_roundtrip buf 12 (v % 4294967296) (by omega)]
    omega
  · intro version v hv
    by_cases hver : version = 1
    · subst hver
      rw [flow_mod_set_v10, flow_mod_get_v10, buf_u16_roundtrip buf 56 (v % 256) (by omega)]
      omega
    · rw [flow_mod_set_other buf version v hver, flow_mod_get_other _ version hver,
        buf_u8_roundtrip buf 25 (v % 256) (by omega)]
      omega

/-- Claim C2, witness: the round trip theorem instantiated on a concrete
64-byte zero buffer, one field of each width. -/
theorem C2_set_get_roundtrip_witness :
    of_message_version_get (of_message_version_set (List.replicate 64 0) 4) = 4 ∧
    of_message_length_get (of_message_length_set (List.replicate 64 0) 4660) = 4660 ∧
    of_message_xid_get (of_message_xid_set (List.replicate 64 0) 3735928559) = 3735928559 ∧
    of_message_flow_mod_command_get
        (of_message_flow_mod_command_set (List.replicate 64 0) 1 255) 1 = 255 := by
  have h := C2_set_get_roundtrip (List.replicate 64 0) (by simp)
  exact ⟨h.1 4 (by omega), h.2.2.1 4660 (by omega), h.2.2.2.1 3735928559 (by omega),
    h.2.2.2.2.2.2.2 1 255 (by omega)⟩

/-- Claim C5: the stats type field and the experimenter id field share
buffer offset 8: writing experimenter id 0xAABBCCDD and then reading the
stats type returns 0xAABB, the high 16 bits of the big-endian 4-byte
encoding. -/
theorem C5_stats_experimenter_alias (buf : Buf) (hlen : 12 ≤ buf.length) :
    of_message_stats_type_get (of_message_experimenter_id_set buf 0xAABBCCDD) = 0xAABB := by
  have hb := buf_u32_set_bytes buf 8 (0xAABBCCDD % 4294967296) (by omega)
  simp only [of_message_stats_type_get, of_message_experimenter_id_set,
    OF_MESSAGE_STATS_TYPE_OFFSET, OF_MESSAGE_EXPERIMENTER_ID_OFFSET, buf_u16_get]
  rw [hb.1, hb.2.1]

/-- Claim C5, witness: the aliasing theorem instantiated on a concrete
12-byte zero buffer. -/
theorem C5_stats_experimenter_alias_witness :
    of_message_stats_type_get
      (of_message_experimenter_id_set (List.replicate 12 0) 0xAABBCCDD) = 0xAABB :=
  C5_stats_experimenter_alias (List.replicate 12 0) (by simp)

/-- Claim C6: the minimum-length constants match the spec table: 8 for
the base header, 10 for the stats type, 12 for the experimenter id
(its offset plus its 4-byte width; the code defines no dedicated
constant for this value), 16 for the experimenter subtype, 57 for the
flow mod command at version 1.0 and 26 at version 1.1 or later. -/
theorem C6_min_length_constants :
    OF_MESSAGE_MIN_LENGTH = 8 ∧
    OF_MESSAGE_MIN_STATS_LENGTH = 10 ∧
    OF_MESSAGE_EXPERIMENTER_ID_OFFSET + 4 = 12 ∧
    OF_MESSAGE_EXPERIMENTER_MIN_LENGTH = 16 ∧
    OF_MESSAGE_MIN_FLOW_MOD_LENGTH 1 = 57 ∧
    (∀ v, 2 ≤ v → OF_MESSAGE_MIN_FLOW_MOD_LENGTH v = 26) := by
  refine ⟨rfl, rfl, rfl, rfl, rfl, ?_⟩
  intro v hv
  simp only [OF_MESSAGE_MIN_FLOW_MOD_LENGTH]
  rw [if_neg (by omega)]

/-- Claim C6, witness: the flow mod minimum length at the concrete
version 4 (wire value of protocol version 1.3). -/
theorem C6_min_length_constants_witness :
    OF_MESSAGE_MIN_FLOW_MOD_LENGTH 4 = 26 :=
  C6_min_length_constants.2.2.2.2.2 4 (by omega)

/-- Claim C9: at version 1.0 the flow mod command get reads the 2-byte
big-endian value at offset 56 and truncates it to its low 8 bits: it
returns the 2-byte value modulo 256, which is the byte at offset 57,
silently discarding the high byte. -/
theorem C9_flow_mod_get_v10_truncates (buf : Buf) (hlen : 58 ≤ buf.length)
    (hbyte : buf.getD 57 0 < 256) :
    of_message_flow_mod_command_get buf 1 =
      (buf.getD 56 0 * 256 + buf.getD 57 0) % 256 ∧
    of_message_flow_mod_command_get buf 1 = buf.getD 57 0 := by
  have h : of_message_flow_mod_command_get buf 1 =
      (buf.getD 56 0 * 256 + buf.getD 57 0) % 256 := by
    rw [flow_mod_get_v10]
    unfold buf_u16_get
    norm_num
  refine ⟨h, ?_⟩
  rw [h]
  omega

/-- Claim C9, witness: a concrete buffer holding 0x01, 0x02 at offsets
56 and 57; the version 1.0 get returns the low byte 2. -/
theorem C9_flow_mod_get_v10_truncates_witness :
    of_message_flow_mod_command_get (List.replicate 56 0 ++ [1, 2]) 1 = 2 := by
  have h := C9_flow_mod_get_v10_truncates (List.replicate 56 0 ++ [1, 2])
    (by decide) (by decide)
  rw [h.2]
  decide

/-- Claim C10: the flow mod command accessors dispatch on a binary test
against version 1.0 only: for every version value other than 1 —
including 0 and wire values not enumerated as any protocol revision —
the offset macro yields 25 and both get and set use the 1-byte form at
offset 25, identical to the behavior at version 2. -/
theorem C10_non_v10_binary_dispatch (buf : Buf) (v c : Nat) (hv : v ≠ 1) :
    OF_MESSAGE_FLOW_MOD_COMMAND_OFFSET v = 25 ∧
    of_message_flow_mod_command_get buf v = buf_u8_get buf 25 ∧
    of_message_flow_mod_command_set buf v c = buf_u8_set buf 25 (c % 256) ∧
    of_message_flow_mod_command_get buf v = of_message_flow_mod_command_get buf 2 ∧
    of_message_flow_mod_command_set buf v c = of_message_flow_mod_command_set buf 2 c := by
  refine ⟨?_, flow_mod_get_other buf v hv, flow_mod_set_other buf v c hv, ?_, ?_⟩
  · simp [OF_MESSAGE_FLOW_MOD_COMMAND_OFFSET, hv]
  · rw [flow_mod_get_other buf v hv, flow_mod_get_other buf 2 (by omega)]
  · rw [flow_mod_set_other buf v c hv, flow_mod_set_other buf 2 c (by omega)]

/-- Claim C10, witness: the dispatch theorem instantiated at version 0,
a wire value that is not an enumerated protocol revision. -/
theorem C10_non_v10_binary_dispatch_witness :
    OF_MESSAGE_FLOW_MOD_COMMAND_OFFSET 0 = 25 ∧
    of_message_flow_mod_command_set (List.replicate 26 0) 0 9 =
      of_message_flow_mod_command_set (List.replicate 26 0) 2 9 := by
  have h := C10_non_v10_binary_dispatch (List.replicate 26 0) 0 9 (by omega)
  exact ⟨h.1, h.2.2.2.2⟩

/-! Idempotence of the raw byte writes. -/

theorem buf_u8_set_idem (b : Buf) (off v : Nat) :
    buf_u8_set (buf_u8_set b off v) off v = buf_u8_set b off v := by
  simp only [buf_u8_set, List.set_set]

theorem buf_u16_set_idem (b : Buf) (off v : Nat) :
    buf_u16_set (buf_u16_set b off v) off v = buf_u16_set b off v := by
  apply List.ext_getElem?
  intro n
  simp only [buf_u16_set, List.getElem?_set, List.length_set]
  split_ifs <;> first | rfl | omega

theorem buf_u32_set_idem (b : Buf) (off v : Nat) :
    buf_u32_set (buf_u32_set b off v) off v = buf_u32_set b off v := by
  apply List.ext_getElem?
  intro n
  simp only [buf_u32_set, List.getElem?_set, List.length_set]
  split_ifs <;> first | rfl | omega

/-- Claim C8: every set operation is idempotent: for every field, every
buffer, every value, and — for the flow mod command — every version,
performing the set twice with the same value yields a buffer with byte
contents identical to performing it once. -/
theorem C8_set_idempotent (buf : Buf) (v ver : Nat) :
    of_message_version_set (of_message_version_set buf v) v =
      of_message_version_set buf v ∧
    of_message_type_set (of_message_type_set buf v) v = of_message_type_set buf v ∧
    of_message_length_set (of_message_length_set buf v) v = of_message_length_set buf v ∧
    of_message_xid_set (of_message_xid_set buf v) v = of_message_xid_set buf v ∧
    of_message_stats_type_set (of_message_stats_type_set buf v) v =
      of_message_stats_type_set buf v ∧
    of_message_experimenter_id_set (of_message_experimenter_id_set buf v) v =
      of_message_experimenter_id_set buf v ∧
    of_message_experimenter_subtype_set (of_message_experimenter_subtype_set buf v) v =
      of_message_experimenter_subtype_set buf v ∧
    of_message_flow_mod_command_set (of_message_flow_mod_command_set buf ver v) ver v =
      of_message_flow_mod_command_set buf ver v := by
  refine ⟨?_, ?_, ?_, ?_, ?_, ?_, ?_, ?_⟩
  · simp only [of_message_version_set, buf_u8_set_idem]
  · simp only [of_message_type_set, buf_u8_set_idem]
  · simp only [of_message_length_set, buf_u16_set_idem]
  · simp only [of_message_xid_set, buf_u32_set_idem]
  · simp only [of_message_stats_type_set, buf_u16_set_idem]
  · simp only [of_message_experimenter_id_set, buf_u32_set_idem]
  · simp only [of_message_experimenter_subtype_set, buf_u32_set_idem]
  · by_cases hver : ver = 1
    · subst hver
      simp only [flow_mod_set_v10, buf_u16_set_idem]
    · simp only [flow_mod_set_other _ _ _ hver, buf_u8_set_idem]

/-- Claim C4: every set operation mutates only the bytes in the field's
declared offset and width range; every byte outside that range is
unchanged, for every buffer and value, and for both version-selected
forms of the flow mod command. -/
theorem C4_frame_effect (buf : Buf) (v ver j : Nat) :
    (j ≠ 0 → (of_message_version_set buf v).getD j 0 = buf.getD j 0) ∧
    (j ≠ 1 → (of_message_type_set buf v).getD j 0 = buf.getD j 0) ∧
    (j ≠ 2 → j ≠ 3 → (of_message_length_set buf v).getD j 0 = buf.getD j 0) ∧
    (j ≠ 4 → j ≠ 5 → j ≠ 6 → j ≠ 7 →
      (of_message_xid_set buf v).getD j 0 = buf.getD j 0) ∧
    (j ≠ 8 → j ≠ 9 → (of_message_stats_type_set buf v).getD j 0 = buf.getD j 0) ∧
    (j ≠ 8 → j ≠ 9 → j ≠ 10 → j ≠ 11 →
      (of_message_experimenter_id_set buf v).getD j 0 = buf.getD j 0) ∧
    (j ≠ 12 → j ≠ 13 → j ≠ 14 → j ≠ 15 →
      (of_message_experimenter_subtype_set buf v).getD j 0 = buf.getD j 0) ∧
    (ver = 1 → j ≠ 56 → j ≠ 57 →
      (of_message_flow_mod_command_set buf ver v).getD j 0 = buf.getD j 0) ∧
    (ver ≠ 1 → j ≠ 25 →
      (of_message_flow_mod_command_set buf ver v).getD j 0 = buf.getD j 0) := by
  refine ⟨?_, ?_, ?_, ?_, ?_, ?_, ?_, ?_, ?_⟩
  · intro h0
    exact buf_u8_set_frame buf 0 (v % 256) j h0
  · intro h1
    simp only [of_message_type_set, OF_MESSAGE_TYPE_OFFSET]
    exact buf_u8_set_frame buf 1 (v % 256) j h1
  · intro h2 h3
    simp only [of_message_length_set, OF_MESSAGE_LENGTH_OFFSET]
    exact buf_u16_set_frame buf 2 (v % 65536) j h2 (by omega)
  · intro h4 h5 h6 h7
    simp only [of_message_xid_set, OF_MESSAGE_XID_OFFSET]
    exact buf_u32_set_frame buf 4 (v % 4294967296) j h4 (by omega) (by omega) (by omega)
  · intro h8 h9
    simp only [of_message_stats_type_set, OF_MESSAGE_STATS_TYPE_OFFSET]
    exact buf_u16_set_frame buf 8 (v % 65536) j h8 (by omega)
  · intro h8 h9 h10 h11
    simp only [of_message_experimenter_id_set, OF_MESSAGE_EXPERIMENTER_ID_OFFSET]
    exact buf_u32_set_frame buf 8 (v % 4294967296) j h8 (by omega) (by omega) (by omega)
  · intro h12 h13 h14 h15
    simp only [of_message_experimenter_subtype_set, OF_MESSAGE_EXPERIMENTER_SUBTYPE_OFFSET]
    exact buf_u32_set_frame buf 12 (v % 4294967296) j h12 (by omega) (by omega) (by omega)
  · intro hver h56 h57
    subst hver
    rw [flow_mod_set_v10]
    exact buf_u16_set_frame buf 56 (v % 256) j h56 (by omega)
  · intro hver h25
    rw [flow_mod_set_other buf ver v hver]
    exact buf_u8_set_frame buf 25 (v % 256) j h25

/-- Claim C4, witness: the frame theorem instantiated on a concrete
buffer at the untouched index 20, for the version field and for both
flow mod command forms. -/
theorem C4_frame_effect_witness :
    (of_message_version_set (List.range 64) 9).getD 20 0 = (List.range 64).getD 20 0 ∧
    (of_message_flow_mod_command_set (List.range 64) 1 9).getD 20 0 =
      (List.range 64).getD 20 0 ∧
    (of_message_flow_mod_command_set (List.range 64) 4 9).getD 20 0 =
      (List.range 64).getD 20 0 := by
  have h1 := C4_frame_effect (List.range 64) 9 1 20
  have h4 := C4_frame_effect (List.range 64) 9 4 20
  exact ⟨h1.1 (by omega), h1.2.2.2.2.2.2.2.1 rfl (by omega) (by omega),
    h4.2.2.2.2.2.2.2.2 (by omega) (by omega)⟩

/-- Claim C7: starting from a 64-byte all-zero buffer, setting version 4,
type 14, length 64, xid 0xDEADBEEF and the flow mod command 2 at
version 4, in that order, yields buf with bytes 4, 14, 0x00, 0x40 and
0xDE, 0xAD, 0xBE, 0xEF in the first eight positions, the byte 2 at
index 25, and every other byte still zero. -/
theorem C7_example_scenario :
    of_message_flow_mod_command_set
        (of_message_xid_set
          (of_message_length_set
            (of_message_type_set
              (of_message_version_set (List.replicate 64 0) 4) 14) 64) 3735928559) 4 2 =
      [4, 14, 0x00, 0x40, 0xDE, 0xAD, 0xBE, 0xEF] ++
        List.replicate 17 0 ++ [2] ++ List.replicate 38 0 := by
  decide

/-- Claim C3, counterexample: the flow mod command set takes an 8-bit
command value even at version 1.0, so the field cannot be set to
0x1234: the value truncates to 0x34 and the byte written at offset 56
is 0x00, not 0x12 as the claim asserts for every 2-byte field. -/
theorem C3_counterexample :
    (of_message_flow_mod_command_set (List.replicate 58 0) 1 0x1234).getD 56 0 = 0x00 ∧
    (of_message_flow_mod_command_set (List.replicate 58 0) 1 0x1234).getD 56 0 ≠ 0x12 := by
  decide

/-- Claim C3, amended: setting the length or stats type field to 0x1234
stores 0x12 then 0x34 at the field's offset, and setting the xid,
experimenter id or experimenter subtype field to 0x01020304 stores the
bytes 0x01, 0x02, 0x03, 0x04; the 2-byte flow mod command form at
version 1.0 accepts only 8-bit commands, zero-extending them: for every
command c it stores 0x00 at offset 56 and c mod 256 at offset 57. -/
theorem C3_big_endian_layout (buf : Buf) (hlen : 58 ≤ buf.length) :
    ((of_message_length_set buf 0x1234).getD 2 0 = 0x12 ∧
     (of_message_length_set buf 0x1234).getD 3 0 = 0x34) ∧
    ((of_message_stats_type_set buf 0x1234).getD 8 0 = 0x12 ∧
     (of_message_stats_type_set buf 0x1234).getD 9 0 = 0x34) ∧
    ((of_message_xid_set buf 0x01020304).getD 4 0 = 0x01 ∧
     (of_message_xid_set buf 0x01020304).getD 5 0 = 0x02 ∧
     (of_message_xid_set buf 0x01020304).getD 6 0 = 0x03 ∧
     (of_message_xid_set buf 0x01020304).getD 7 0 = 0x04) ∧
    ((of_message_experimenter_id_set buf 0x01020304).getD 8 0 = 0x01 ∧
     (of_message_experimenter_id_set buf 0x01020304).getD 9 0 = 0x02 ∧
     (of_message_experimenter_id_set buf 0x01020304).getD 10 0 = 0x03 ∧
     (of_message_experimenter_id_set buf 0x01020304).getD 11 0 = 0x04) ∧
    ((of_message_experimenter_subtype_set buf 0x01020304).getD 12 0 = 0x01 ∧
     (of_message_experimenter_subtype_set buf 0x01020304).getD 13 0 = 0x02 ∧
     (of_message_experimenter_subtype_set buf 0x01020304).getD 14 0 = 0x03 ∧
     (of_message_experimenter_subtype_set buf 0x01020304).getD 15 0 = 0x04) ∧
    (∀ c, (of_message_flow_mod_command_set buf 1 c).getD 56 0 = 0x00 ∧
          (of_message_flow_mod_command_set buf 1 c).getD 57 0 = c % 256) := by
  simp only [of_message_length_set, of_message_stats_type_set, of_message_xid_set,
    of_message_experimenter_id_set, of_message_experimenter_subtype_set,
    OF_MESSAGE_LENGTH_OFFSET, OF_MESSAGE_STATS_TYPE_OFFSET, OF_MESSAGE_XID_OFFSET,
    OF_MESSAGE_EXPERIMENTER_ID_OFFSET, OF_MESSAGE_EXPERIMENTER_SUBTYPE_OFFSET]
  refine ⟨⟨?_, ?_⟩, ⟨?_, ?_⟩, ⟨?_, ?_, ?_, ?_⟩, ⟨?_, ?_, ?_, ?_⟩, ⟨?_, ?_, ?_, ?_⟩, ?_⟩
  · simpa using buf_u16_set_byte_hi buf 2 (0x1234 % 65536) (by omega)
  · simpa using buf_u16_set_byte_lo buf 2 (0x1234 % 65536) (by omega)
  · simpa using buf_u16_set_byte_hi buf 8 (0x1234 % 65536) (by omega)
  · simpa using buf_u16_set_byte_lo buf 8 (0x1234 % 65536) (by omega)
  · simpa using (buf_u32_set_bytes buf 4 (0x01020304 % 4294967296) (by omega)).1
  · simpa using (buf_u32_set_bytes buf 4 (0x01020304 % 4294967296) (by omega)).2.1
  · simpa using (buf_u32_set_bytes buf 4 (0x01020304 % 4294967296) (by omega)).2.2.1
  · simpa using (buf_u32_set_bytes buf 4 (0x01020304 % 4294967296) (by omega)).2.2.2
  · simpa using (buf_u32_set_bytes buf 8 (0x01020304 % 4294967296) (by omega)).1
  · simpa using (buf_u32_set_bytes buf 8 (0x01020304 % 4294967296) (by omega)).2.1
  · simpa using (buf_u32_set_bytes buf 8 (0x01020304 % 4294967296) (by omega)).2.2.1
  · simpa using (buf_u32_set_bytes buf 8 (0x01020304 % 4294967296) (by omega)).2.2.2
  · simpa using (buf_u32_set_bytes buf 12 (0x01020304 % 4294967296) (by omega)).1
  · simpa using (buf_u32_set_bytes buf 12 (0x01020304 % 4294967296) (by omega)).2.1
  · simpa using (buf_u32_set_bytes buf 12 (0x01020304 % 4294967296) (by omega)).2.2.1
  · simpa using (buf_u32_set_bytes buf 12 (0x01020304 % 4294967296) (by omega)).2.2.2
  · intro c
    rw [flow_mod_set_v10]
    constructor
    · rw [buf_u16_set_byte_hi buf 56 (c % 256) (by omega)]
      omega
    · rw [buf_u16_set_byte_lo buf 56 (c % 256) (by omega)]
      omega

/-- Claim C3, amended, witness: the layout theorem instantiated on a
concrete 58-byte zero buffer, including the truncating flow mod command
write of 0x1234. -/
theorem C3_big_endian_layout_witness :
    (of_message_length_set (List.replicate 58 0) 0x1234).getD 2 0 = 0x12 ∧
    (of_message_xid_set (List.replicate 58 0) 0x01020304).getD 7 0 = 0x04 ∧
    (of_message_flow_mod_command_set (List.replicate 58 0) 1 0x1234).getD 57 0 = 0x34 := by
  have h := C3_big_endian_layout (List.replicate 58 0) (by simp)
  refine ⟨h.1.1, h.2.2.1.2.2.2, ?_⟩
  have h2 := (h.2.2.2.2.2 0x1234).2
  simpa using h2
